import Mathlib

/-!
Verification of the `rc-building-model` repository against its specification.

The repository has two modules:
* `rc_building_model/htuse.py` — annual heat loss, useful gains and heat use
  from per-dwelling coefficients and fixed monthly climate constants;
* `rcbm/vent.py` — infiltration rate and effective air-change rate of a
  population of dwellings.

Shallow embedding conventions:
* a pandas `Series` of numbers is a `List ℚ` (one entry per dwelling, in
  population order); where the behaviour of the pandas *index* itself is at
  stake, a series is a `List (ℤ × ℚ)` of (index label, value) pairs;
* `NaN` (produced by a pandas `.map` on a key missing from the dict) is
  modelled by `Option ℚ` with `none` for `NaN`;
* a raised Python exception is `Except.error`; normal return is `Except.ok`.
  Both `DivisionByZero` and `ValueError` of the source are rendered as a
  `String` message, since the spec groups them under one `InvalidInput` kind.
-/

namespace Htuse

/-- `ADJUSTED_MONTHLY_INTERNAL_TEMPERATURE` from `htuse.py`: twelve monthly
values, jan..dec (month m of the source's string index is position m here). -/
def ADJUSTED_MONTHLY_INTERNAL_TEMPERATURE : List ℚ :=
  [17.72, 17.73, 17.85, 17.95, 18.15, 18.35, 18.50, 18.48, 18.33, 18.11, 17.88, 17.77]

/-- `MEAN_MONTHLY_EXTERNAL_TEMPERATURE` from `htuse.py`, jan..dec. -/
def MEAN_MONTHLY_EXTERNAL_TEMPERATURE : List ℚ :=
  [5.3, 5.5, 7.0, 8.3, 11.0, 13.5, 15.5, 15.2, 13.3, 10.4, 7.5, 6.0]

/-- `DELTA_T_BY_MONTH = ADJUSTED_MONTHLY_INTERNAL_TEMPERATURE -
MEAN_MONTHLY_EXTERNAL_TEMPERATURE` (elementwise, aligned on the month index). -/
def DELTA_T_BY_MONTH : List ℚ :=
  List.zipWith (· - ·) ADJUSTED_MONTHLY_INTERNAL_TEMPERATURE MEAN_MONTHLY_EXTERNAL_TEMPERATURE

/-- `DAYS_PER_MONTH` from `htuse.py`, jan..dec. -/
def DAYS_PER_MONTH : List ℚ :=
  [31, 28, 31, 30, 31, 30, 31, 31, 30, 31, 30, 31]

/-- `HOURS_PER_MONTH = [d * 24 for d in DAYS_PER_MONTH]`. -/
def HOURS_PER_MONTH : List ℚ :=
  DAYS_PER_MONTH.map (· * 24)

/-- `MEAN_MONTHLY_SOLAR_GAINS` from `htuse.py`, jan..dec. -/
def MEAN_MONTHLY_SOLAR_GAINS : List ℚ :=
  [0.63, 1.12, 1.7, 2.35, 2.96, 2.99, 2.79, 2.54, 1.99, 1.37, 0.8, 0.55]

/-- `UTILISATION_FACTOR` from `htuse.py`, jan..dec. -/
def UTILISATION_FACTOR : List ℚ :=
  [0.99, 0.97, 0.91, 0.78, 0.55, 0.38, 0.25, 0.29, 0.51, 0.83, 0.97, 0.99]

/-- `calculate_useful_gains_per_year(floor_area, window_area,
mean_monthly_solar_gains, light_gain_value)` from `htuse.py`:
`solar_gain_kwh = (window_area / 6) * (mean_monthly_solar_gains * UTILISATION_FACTOR).sum()`,
`solar_gain_w = solar_gain_kwh * 1000 / 24`, `light_gains = floor_area *
light_gain_value`, returning `solar_gain_w + light_gains`, elementwise over
the per-dwelling series. -/
def calculate_useful_gains_per_year (floor_area window_area : List ℚ)
    (mean_monthly_solar_gains : List ℚ := MEAN_MONTHLY_SOLAR_GAINS)
    (light_gain_value : ℚ := 8) : List ℚ :=
  let solar_gain_kwh :=
    window_area.map (fun w => (w / 6) *
      (List.zipWith (· * ·) mean_monthly_solar_gains UTILISATION_FACTOR).sum)
  let solar_gain_w := solar_gain_kwh.map (fun x => x * 1000 / 24)
  let light_gains := floor_area.map (fun f => f * light_gain_value)
  List.zipWith (· + ·) solar_gain_w light_gains

/-- numpy / pandas `round`: round half to even (banker's rounding), the
rounding applied by the source's final `.round()`. -/
def np_round (q : ℚ) : ℤ :=
  let f := ⌊q⌋
  if q - f < 1 / 2 then f
  else if 1 / 2 < q - f then f + 1
  else if f % 2 = 0 then f else f + 1

/-- `np.tile(l, k)`: the list `l` repeated `k` times end to end. -/
def np_tile (l : List ℚ) : ℕ → List ℚ
  | 0 => []
  | k + 1 => l ++ np_tile l k

/-- `np.repeat(l, k)`: each element of `l` repeated `k` times in place. -/
def np_repeat (l : List ℚ) (k : ℕ) : List ℚ :=
  match l with
  | [] => []
  | c :: cs => List.replicate k c ++ np_repeat cs k

/-- `_calculate_heat_loss_kwh(heat_loss_coefficient, delta_t, hours)` from
`htuse.py`: tile the two monthly series once per dwelling, repeat each
coefficient once per month (dwelling-major layout, entry `d * 12 + m`),
then `heat_loss_w = coefficient * delta_t` and the result
`heat_loss_w * (1 / 1000) * hours`. -/
def _calculate_heat_loss_kwh (heat_loss_coefficient delta_t hours : List ℚ) : List ℚ :=
  let broadcasted_delta_t := np_tile delta_t heat_loss_coefficient.length
  let broadcasted_hours_per_month := np_tile hours heat_loss_coefficient.length
  let broadcasted_heat_loss_coefficient := np_repeat heat_loss_coefficient hours.length
  let heat_loss_w := List.zipWith (· * ·) broadcasted_heat_loss_coefficient broadcasted_delta_t
  List.zipWith (fun x h => x * (1 / 1000) * h) heat_loss_w broadcasted_hours_per_month

/-- Positions (within the jan..dec index) of the `heating_months` list of
`calculate_heat_loss_per_year`: jan, feb, mar, apr, may, oct, nov, dec. -/
def heating_month_positions : List ℕ := [0, 1, 2, 3, 4, 9, 10, 11]

/-- `calculate_heat_loss_per_year(heat_loss_coefficient, delta_t, hours)` from
`htuse.py`.  The source labels the flat kwh array with the month names
(dwelling-major), then `.loc[heating_months]` gathers, for each heating-month
label in order, that label's entry of every dwelling block — a month-major
list whose entry `j * n + d` is dwelling `d`'s value for heating month `j`;
the `groupby("index").cumcount()` re-index then makes entry `j * n + d`
belong to group `d`, so `.sum(level=0)` sums, per dwelling `d`, the eight
entries `j * n + d`, and `.round()` rounds each annual figure. -/
def calculate_heat_loss_per_year (heat_loss_coefficient : List ℚ)
    (delta_t : List ℚ := DELTA_T_BY_MONTH) (hours : List ℚ := HOURS_PER_MONTH) :
    List ℤ :=
  let n := heat_loss_coefficient.length
  let heat_loss_kwh := _calculate_heat_loss_kwh heat_loss_coefficient delta_t hours
  let heat_loss_kwh_for_heating_months :=
    heating_month_positions.flatMap
      (fun m => (List.range n).map (fun d => heat_loss_kwh.getD (d * 12 + m) 0))
  ((List.range n).map (fun d =>
    ((List.range heating_month_positions.length).map
      (fun j => heat_loss_kwh_for_heating_months.getD (j * n + d) 0)).sum)).map np_round

/-- `calculate_heat_use(monthly_heat_loss, monthly_useful_gains)` from
`htuse.py`: `monthly_heat_use_w = (monthly_heat_loss - monthly_useful_gains) /
0.913`, returned as `(monthly_heat_use_w / 1000) * 24 * 243`.  The source is
plain arithmetic, applied elementwise when given series, so it is embedded on
scalars. -/
def calculate_heat_use (monthly_heat_loss monthly_useful_gains : ℚ) : ℚ :=
  let monthly_heat_use_w := (monthly_heat_loss - monthly_useful_gains) / 0.913
  (monthly_heat_use_w / 1000) * 24 * 243

end Htuse

namespace Vent

/-- Elementwise action of `_calculate_natural_ventilation_air_rate_change`
from `vent.py`: `infiltration_rate.where(infiltration_rate > 1, 0.5 +
(infiltration_rate ** 2) * 0.5)` keeps the value where it exceeds 1 and
substitutes `0.5 + value² × 0.5` elsewhere. -/
def natural_ventilation_air_rate_change_scalar (infiltration_rate : ℚ) : ℚ :=
  if infiltration_rate > 1 then infiltration_rate
  else 0.5 + infiltration_rate ^ 2 * 0.5

/-- `_calculate_natural_ventilation_air_rate_change(infiltration_rate)` from
`vent.py`, over a per-dwelling series. -/
def _calculate_natural_ventilation_air_rate_change (infiltration_rate : List ℚ) : List ℚ :=
  infiltration_rate.map natural_ventilation_air_rate_change_scalar

/-- `acceptable_structure_types` from
`calculate_infiltration_rate_due_to_structure_type` in `vent.py`. -/
def acceptable_structure_types : List String :=
  ["unknown", "masonry", "timber_or_steel", "concrete"]

/-- `acceptable_suspended_floor_types` from
`calculate_infiltration_rate_due_to_suspended_floor` in `vent.py`. -/
def acceptable_suspended_floor_types : List String :=
  ["none", "sealed", "unsealed"]

/-- `acceptable_ventilation_methods` from `calculate_effective_air_rate_change`
in `vent.py`. -/
def acceptable_ventilation_methods : List String :=
  ["positive_input_ventilation_from_loft",
   "natural_ventilation",
   "mechanical_ventilation_no_heat_recovery",
   "mechanical_ventilation_heat_recovery",
   "positive_input_ventilation_from_outside"]

/-- The `DivisionByZero` message of `_calculate_infiltration_rate_due_to_opening`. -/
def zero_volume_message : String :=
  "Please remove buildings with zero volume, otherwise they will have an infinite infiltration rate!"

/-- The `ValueError` message of `calculate_infiltration_rate_due_to_structure_type`. -/
def structure_type_message : String :=
  "Only unknown, masonry, timber_or_steel and concrete structure types are supported!"

/-- The `ValueError` message of `calculate_infiltration_rate_due_to_suspended_floor`. -/
def floor_type_message : String :=
  "Only none, sealed and unsealed floor types are supported!"

/-- The `ValueError` message of `calculate_effective_air_rate_change`. -/
def ventilation_method_message : String :=
  "Only the five named ventilation methods are supported!"

/-- `_calculate_infiltration_rate_due_to_opening(no_openings, building_volume,
ventilation_rate)` from `vent.py`: raises `DivisionByZero` when any building
volume equals 0, otherwise returns
`no_openings * ventilation_rate / building_volume` elementwise. -/
def _calculate_infiltration_rate_due_to_opening
    (no_openings building_volume : List ℚ) (ventilation_rate : ℚ) :
    Except String (List ℚ) :=
  if building_volume.any (fun v => decide (v = 0)) then
    .error zero_volume_message
  else
    .ok (List.zipWith (fun n v => n * ventilation_rate / v) no_openings building_volume)

/-- `calculate_infiltration_rate_due_to_chimneys` from `vent.py` (rate 40). -/
def calculate_infiltration_rate_due_to_chimneys
    (no_chimneys building_volume : List ℚ) (ventilation_rate : ℚ := 40) :
    Except String (List ℚ) :=
  _calculate_infiltration_rate_due_to_opening no_chimneys building_volume ventilation_rate

/-- `calculate_infiltration_rate_due_to_open_flues` from `vent.py` (rate 20). -/
def calculate_infiltration_rate_due_to_open_flues
    (no_chimneys building_volume : List ℚ) (ventilation_rate : ℚ := 20) :
    Except String (List ℚ) :=
  _calculate_infiltration_rate_due_to_opening no_chimneys building_volume ventilation_rate

/-- `calculate_infiltration_rate_due_to_fans` from `vent.py` (rate 10). -/
def calculate_infiltration_rate_due_to_fans
    (no_chimneys building_volume : List ℚ) (ventilation_rate : ℚ := 10) :
    Except String (List ℚ) :=
  _calculate_infiltration_rate_due_to_opening no_chimneys building_volume ventilation_rate

/-- `calculate_infiltration_rate_due_to_room_heaters` from `vent.py` (rate 40). -/
def calculate_infiltration_rate_due_to_room_heaters
    (no_chimneys building_volume : List ℚ) (ventilation_rate : ℚ := 40) :
    Except String (List ℚ) :=
  _calculate_infiltration_rate_due_to_opening no_chimneys building_volume ventilation_rate

/-- Elementwise action of `calculate_infiltration_rate_due_to_draught_lobby`:
the composition of the pandas maps `{"YES": True, "NO": False}` and
`{True: 0, False: 0.05}`.  A value outside `{"YES", "NO"}` is missing from the
first dict, so pandas produces `NaN` (here `none`) without raising. -/
def draught_lobby_rate (s : String) : Option ℚ :=
  if s = "YES" then some 0 else if s = "NO" then some 0.05 else none

/-- `calculate_infiltration_rate_due_to_draught_lobby(is_draught_lobby)` from
`vent.py`. -/
def calculate_infiltration_rate_due_to_draught_lobby
    (is_draught_lobby : List String) : List (Option ℚ) :=
  is_draught_lobby.map draught_lobby_rate

/-- `calculate_infiltration_rate_due_to_openings(...)` from `vent.py`: the sum
of the chimney, open-flue, fan, room-heater and draught-lobby contributions.
The first four are evaluated in source order (each re-checking the volumes);
adding the possibly-`NaN` draught-lobby series makes the result `NaN`
wherever the lobby value was out of set. -/
def calculate_infiltration_rate_due_to_openings
    (building_volume no_chimneys no_open_flues no_fans no_room_heaters : List ℚ)
    (is_draught_lobby : List String) : Except String (List (Option ℚ)) := do
  let ch ← calculate_infiltration_rate_due_to_chimneys no_chimneys building_volume
  let fl ← calculate_infiltration_rate_due_to_open_flues no_open_flues building_volume
  let fa ← calculate_infiltration_rate_due_to_fans no_fans building_volume
  let rh ← calculate_infiltration_rate_due_to_room_heaters no_room_heaters building_volume
  let dl := calculate_infiltration_rate_due_to_draught_lobby is_draught_lobby
  .ok (List.zipWith (fun x o => o.map (fun y => x + y))
        (List.zipWith (· + ·) (List.zipWith (· + ·) (List.zipWith (· + ·) ch fl) fa) rh) dl)

/-- `calculate_infiltration_rate_due_to_height(no_storeys)` from `vent.py`:
`(no_storeys - 1) * 0.1`. -/
def calculate_infiltration_rate_due_to_height (no_storeys : List ℚ) : List ℚ :=
  no_storeys.map (fun s => (s - 1) * 0.1)

/-- Elementwise action of the `infiltration_rate_map` dict in
`calculate_infiltration_rate_due_to_structure_type`.  The catch-all arm covers
`"concrete" ↦ 0`; any other value has already been rejected by the membership
check that precedes the map in the source. -/
def structure_type_infiltration_rate (unknown_structure_infiltration_rate : ℚ)
    (s : String) : ℚ :=
  if s = "unknown" then unknown_structure_infiltration_rate
  else if s = "masonry" then 0.35
  else if s = "timber_or_steel" then 0.25
  else 0

/-- `calculate_infiltration_rate_due_to_structure_type(structure_type,
unknown_structure_infiltration_rate=0.35)` from `vent.py`: raises `ValueError`
when any value lies outside `acceptable_structure_types`, otherwise maps each
value through the rate dict. -/
def calculate_infiltration_rate_due_to_structure_type
    (structure_type : List String)
    (unknown_structure_infiltration_rate : ℚ := 0.35) :
    Except String (List ℚ) :=
  if structure_type.all (fun s => decide (s ∈ acceptable_structure_types)) then
    .ok (structure_type.map (structure_type_infiltration_rate unknown_structure_infiltration_rate))
  else
    .error structure_type_message

/-- Elementwise action of the `infiltration_rate_map` dict in
`calculate_infiltration_rate_due_to_suspended_floor`.  The catch-all arm
covers `"unsealed" ↦ 0.2`; any other value has already been rejected by the
membership check that precedes the map in the source. -/
def suspended_floor_infiltration_rate (s : String) : ℚ :=
  if s = "none" then 0 else if s = "sealed" then 0.1 else 0.2

/-- `calculate_infiltration_rate_due_to_suspended_floor(is_floor_suspended)`
from `vent.py`: raises `ValueError` when any value lies outside
`acceptable_suspended_floor_types`, otherwise maps each value through the
rate dict. -/
def calculate_infiltration_rate_due_to_suspended_floor
    (is_floor_suspended : List String) : Except String (List ℚ) :=
  if is_floor_suspended.all (fun s => decide (s ∈ acceptable_suspended_floor_types)) then
    .ok (is_floor_suspended.map suspended_floor_infiltration_rate)
  else
    .error floor_type_message

/-- `calculate_infiltration_rate_due_to_draught(percentage_draught_stripped)`
from `vent.py`: `0.25 - (0.2 * (percentage_draught_stripped / 100))`. -/
def calculate_infiltration_rate_due_to_draught
    (percentage_draught_stripped : List ℚ) : List ℚ :=
  percentage_draught_stripped.map (fun p => 0.25 - 0.2 * (p / 100))

/-- `calculate_infiltration_rate_due_to_structure(...)` from `vent.py`:
`theoretical_infiltration_rate` is the sum of the height, structure-type,
suspended-floor and draught contributions (the two categorical lookups raise
on out-of-set values, structure type first, as in the source's left-to-right
evaluation); `np.where(permeability_test_result > 0, permeability_test_result,
theoretical_infiltration_rate)` then selects per dwelling.  The values of the
result are modelled here; the source additionally rewraps them as
`pd.Series(...)`, whose index behaviour is modelled separately by
`calculate_infiltration_rate_due_to_structure_reindexed`. -/
def calculate_infiltration_rate_due_to_structure
    (permeability_test_result no_storeys percentage_draught_stripped : List ℚ)
    (is_floor_suspended structure_type : List String) :
    Except String (List ℚ) := do
  let st ← calculate_infiltration_rate_due_to_structure_type structure_type
  let fl ← calculate_infiltration_rate_due_to_suspended_floor is_floor_suspended
  let theoretical_infiltration_rate :=
    List.zipWith (· + ·)
      (List.zipWith (· + ·)
        (List.zipWith (· + ·) (calculate_infiltration_rate_due_to_height no_storeys) st) fl)
      (calculate_infiltration_rate_due_to_draught percentage_draught_stripped)
  .ok (List.zipWith (fun p t => if p > 0 then p else t)
        permeability_test_result theoretical_infiltration_rate)

/-- `calculate_infiltration_rate_adjustment_factor(infiltration_rate,
no_sides_sheltered)` from `vent.py`: `infiltration_rate * (1 -
no_sides_sheltered * 0.075)` elementwise (`NaN` absorbing). -/
def calculate_infiltration_rate_adjustment_factor
    (infiltration_rate : List (Option ℚ)) (no_sides_sheltered : List ℚ) :
    List (Option ℚ) :=
  List.zipWith (fun o s => o.map (fun x => x * (1 - s * 0.075)))
    infiltration_rate no_sides_sheltered

/-- `calculate_infiltration_rate(...)` from `vent.py`: openings stage, then
structure stage, summed and shelter-adjusted. -/
def calculate_infiltration_rate
    (no_sides_sheltered building_volume no_chimneys no_open_flues no_fans
      no_room_heaters : List ℚ) (is_draught_lobby : List String)
    (permeability_test_result no_storeys percentage_draught_stripped : List ℚ)
    (is_floor_suspended structure_type : List String) :
    Except String (List (Option ℚ)) := do
  let infiltration_rate_due_to_openings ← calculate_infiltration_rate_due_to_openings
    building_volume no_chimneys no_open_flues no_fans no_room_heaters is_draught_lobby
  let infiltration_rate_due_to_structure ← calculate_infiltration_rate_due_to_structure
    permeability_test_result no_storeys percentage_draught_stripped
    is_floor_suspended structure_type
  let infiltration_rate := List.zipWith (fun o s => o.map (fun x => x + s))
    infiltration_rate_due_to_openings infiltration_rate_due_to_structure
  .ok (calculate_infiltration_rate_adjustment_factor infiltration_rate no_sides_sheltered)

/-- Elementwise action of `_calculate_loft_ventilation_air_rate_change` from
`vent.py`: the natural-ventilation formula plus `20 / building_volume`. -/
def loft_ventilation_air_rate_change_scalar (infiltration_rate building_volume : ℚ) : ℚ :=
  natural_ventilation_air_rate_change_scalar infiltration_rate + 20 / building_volume

/-- Elementwise action of `_calculate_outside_ventilation_air_rate_change`
from `vent.py`: `np.maximum(0.5, infiltration_rate + 0.25)`. -/
def outside_ventilation_air_rate_change_scalar (infiltration_rate : ℚ) : ℚ :=
  max 0.5 (infiltration_rate + 0.25)

/-- Elementwise action of `_calculate_mech_ventilation_air_rate_change` from
`vent.py`: `infiltration_rate + 0.5`. -/
def mech_ventilation_air_rate_change_scalar (infiltration_rate : ℚ) : ℚ :=
  infiltration_rate + 0.5

/-- Elementwise action of
`_calculate_heat_recovery_ventilation_air_rate_change` from `vent.py`:
`infiltration_rate + 0.5 * (1 - heat_exchanger_efficiency / 100)`. -/
def heat_recovery_ventilation_air_rate_change_scalar
    (infiltration_rate heat_exchanger_efficiency : ℚ) : ℚ :=
  infiltration_rate + 0.5 * (1 - heat_exchanger_efficiency / 100)

/-- One dwelling row of the four index-aligned input series of
`calculate_effective_air_rate_change`.  The source passes four separate
pandas series sharing the population index; since boolean-mask filtering on a
shared index is positional, they are modelled as one list of aligned rows,
each row carrying its index label `idx`. -/
structure VentRow where
  idx : ℕ
  ventilation_method : String
  building_volume : ℚ
  infiltration_rate : ℚ
  heat_exchanger_efficiency : ℚ
deriving DecidableEq

/-- `calculate_effective_air_rate_change(ventilation_method, building_volume,
infiltration_rate, heat_exchanger_efficiency)` from `vent.py`: validates the
method values, slices the population into the five method groups with boolean
masks, applies the per-method formula to each group, and returns
`pd.concat([natural, loft, outside, mechanical, heat_recovery]).sort_index()`
— the concatenation of the groups sorted by index label. -/
def calculate_effective_air_rate_change (pop : List VentRow) :
    Except String (List (ℕ × ℚ)) :=
  if pop.all (fun r => decide (r.ventilation_method ∈ acceptable_ventilation_methods)) then
    let natural := (pop.filter (fun r => r.ventilation_method == "natural_ventilation")).map
      (fun r => (r.idx, natural_ventilation_air_rate_change_scalar r.infiltration_rate))
    let loft := (pop.filter
        (fun r => r.ventilation_method == "positive_input_ventilation_from_loft")).map
      (fun r => (r.idx,
        loft_ventilation_air_rate_change_scalar r.infiltration_rate r.building_volume))
    let outside := (pop.filter
        (fun r => r.ventilation_method == "positive_input_ventilation_from_outside")).map
      (fun r => (r.idx, outside_ventilation_air_rate_change_scalar r.infiltration_rate))
    let mechanical := (pop.filter
        (fun r => r.ventilation_method == "mechanical_ventilation_no_heat_recovery")).map
      (fun r => (r.idx, mech_ventilation_air_rate_change_scalar r.infiltration_rate))
    let heat_recovery := (pop.filter
        (fun r => r.ventilation_method == "mechanical_ventilation_heat_recovery")).map
      (fun r => (r.idx, heat_recovery_ventilation_air_rate_change_scalar
        r.infiltration_rate r.heat_exchanger_efficiency))
    .ok ((natural ++ loft ++ outside ++ mechanical ++ heat_recovery).mergeSort
      (fun a b => decide (a.1 ≤ b.1)))
  else .error ventilation_method_message

/-- Index behaviour of `calculate_infiltration_rate_due_to_structure`: the
source returns `pd.Series(np.where(...))`, and constructing a `pd.Series`
from a bare numpy array attaches the default `RangeIndex 0..N-1` — the
`index` of the input population (carried here explicitly, positionally
aligned with the value series) is not propagated to the result. -/
def calculate_infiltration_rate_due_to_structure_reindexed
    (index : List ℤ)
    (permeability_test_result no_storeys percentage_draught_stripped : List ℚ)
    (is_floor_suspended structure_type : List String) :
    Except String (List (ℤ × ℚ)) := do
  let _ := index
  let vals ← calculate_infiltration_rate_due_to_structure
    permeability_test_result no_storeys percentage_draught_stripped
    is_floor_suspended structure_type
  .ok (((List.range vals.length).map Int.ofNat).zip vals)

end Vent

/-- `true` exactly on `Except.error`. -/
def exceptIsError {α : Type} : Except String α → Bool
  | .error _ => true
  | .ok _ => false

/-- `getD` of a mapped list, inside bounds. -/
theorem getD_map_of_lt {α β : Type} (f : α → β) (l : List α) (d : ℕ)
    (da : α) (db : β) (hd : d < l.length) :
    (l.map f).getD d db = f (l.getD d da) := by
  rw [List.getD_eq_getElem?_getD, List.getElem?_map, List.getElem?_eq_getElem hd,
    List.getD_eq_getElem?_getD, List.getElem?_eq_getElem hd]
  rfl

/-- `getD` of a zipped list, inside bounds. -/
theorem getD_zipWith_of_lt {α β γ : Type} (f : α → β → γ) (a : List α)
    (b : List β) (d : ℕ) (da : α) (db : β) (dc : γ)
    (ha : d < a.length) (hb : d < b.length) :
    (List.zipWith f a b).getD d dc = f (a.getD d da) (b.getD d db) := by
  have hz : d < (List.zipWith f a b).length := by
    rw [List.length_zipWith]; omega
  rw [List.getD_eq_getElem?_getD, List.getD_eq_getElem?_getD, List.getD_eq_getElem?_getD,
    List.getElem?_eq_getElem hz, List.getElem?_eq_getElem ha, List.getElem?_eq_getElem hb]
  simp [List.getElem_zipWith]

/-- `getD` of an append, inside the left part. -/
theorem getD_append_left_of_lt {α : Type} (l l' : List α) (i : ℕ) (dflt : α)
    (h : i < l.length) : (l ++ l').getD i dflt = l.getD i dflt := by
  rw [List.getD_eq_getElem?_getD, List.getD_eq_getElem?_getD, List.getElem?_append_left h]

/-- `getD` of an append, inside the right part. -/
theorem getD_append_right_of_le {α : Type} (l l' : List α) (i : ℕ) (dflt : α)
    (h : l.length ≤ i) : (l ++ l').getD i dflt = l'.getD (i - l.length) dflt := by
  rw [List.getD_eq_getElem?_getD, List.getD_eq_getElem?_getD, List.getElem?_append_right h]

/-- `getD` of a map over `List.range`, inside bounds. -/
theorem getD_range_map {β : Type} (g : ℕ → β) (n d : ℕ) (dflt : β) (hd : d < n) :
    ((List.range n).map g).getD d dflt = g d := by
  rw [getD_map_of_lt g (List.range n) d 0 dflt (by simpa using hd)]
  congr 1
  rw [List.getD_eq_getElem?_getD, List.getElem?_eq_getElem (by simpa using hd)]
  simp [List.getElem_range]

/-- Length of `np.tile`. -/
theorem np_tile_length (l : List ℚ) (k : ℕ) :
    (Htuse.np_tile l k).length = k * l.length := by
  induction k with
  | zero => simp [Htuse.np_tile]
  | succ k ih =>
    simp only [Htuse.np_tile, List.length_append, ih, Nat.succ_mul]
    omega

/-- Length of `np.repeat`. -/
theorem np_repeat_length (l : List ℚ) (k : ℕ) :
    (Htuse.np_repeat l k).length = l.length * k := by
  induction l with
  | nil => simp [Htuse.np_repeat]
  | cons c cs ih =>
    simp only [Htuse.np_repeat, List.length_append, ih, List.length_replicate,
      List.length_cons, Nat.succ_mul]
    omega

/-- Entry `d * L + m` of `np.tile l k` is entry `m` of `l`. -/
theorem np_tile_getD (l : List ℚ) (L k d m : ℕ) (hL : l.length = L) (hm : m < L)
    (hd : d < k) : (Htuse.np_tile l k).getD (d * L + m) 0 = l.getD m 0 := by
  induction k generalizing d with
  | zero => omega
  | succ k ih =>
    cases d with
    | zero =>
      rw [show Htuse.np_tile l (k + 1) = l ++ Htuse.np_tile l k from rfl]
      rw [show 0 * L + m = m by ring]
      exact getD_append_left_of_lt l _ m 0 (by omega)
    | succ d =>
      rw [show Htuse.np_tile l (k + 1) = l ++ Htuse.np_tile l k from rfl]
      rw [getD_append_right_of_le l _ ((d + 1) * L + m) 0
        (by rw [hL, Nat.succ_mul]; omega)]
      rw [show (d + 1) * L + m - l.length = d * L + m by rw [hL, Nat.succ_mul]; omega]
      exact ih d (by omega)

/-- Entry `d * k + m` of `np.repeat l k` is entry `d` of `l`. -/
theorem np_repeat_getD (l : List ℚ) (k d m : ℕ) (hm : m < k) (hd : d < l.length) :
    (Htuse.np_repeat l k).getD (d * k + m) 0 = l.getD d 0 := by
  induction l generalizing d with
  | nil => simp at hd
  | cons c cs ih =>
    cases d with
    | zero =>
      rw [show Htuse.np_repeat (c :: cs) k = List.replicate k c ++ Htuse.np_repeat cs k
        from rfl]
      rw [show 0 * k + m = m by ring]
      rw [getD_append_left_of_lt _ _ m 0 (by simp only [List.length_replicate]; omega)]
      rw [List.getD_eq_getElem?_getD, List.getElem?_replicate_of_lt hm]
      rfl
    | succ d =>
      rw [show Htuse.np_repeat (c :: cs) k = List.replicate k c ++ Htuse.np_repeat cs k
        from rfl]
      rw [getD_append_right_of_le _ _ ((d + 1) * k + m) 0
        (by simp only [List.length_replicate, Nat.succ_mul]; omega)]
      rw [show (d + 1) * k + m - (List.replicate k c).length = d * k + m by
        simp only [List.length_replicate, Nat.succ_mul]; omega]
      rw [ih d (by simp only [List.length_cons] at hd; omega)]
      rfl

/-- Entry `j * n + d` of a `flatMap` whose blocks all have length `n` is
entry `d` of block `j`. -/
theorem getD_flatMap_fixed {β : Type} [Inhabited β] (l : List ℕ) (f : ℕ → List β)
    (n : ℕ) (hf : ∀ x, (f x).length = n) (j d : ℕ) (dflt : β) (hj : j < l.length)
    (hd : d < n) :
    (l.flatMap f).getD (j * n + d) dflt = (f (l.getD j 0)).getD d dflt := by
  induction l generalizing j with
  | nil => simp at hj
  | cons a as ih =>
    cases j with
    | zero =>
      rw [List.flatMap_cons]
      rw [show 0 * n + d = d by ring]
      rw [getD_append_left_of_lt _ _ d dflt (by rw [hf a]; omega)]
      rfl
    | succ j =>
      rw [List.flatMap_cons]
      rw [getD_append_right_of_le _ _ ((j + 1) * n + d) dflt
        (by rw [hf a, Nat.succ_mul]; omega)]
      rw [show (j + 1) * n + d - (f a).length = j * n + d by rw [hf a, Nat.succ_mul]; omega]
      rw [ih j (by simp only [List.length_cons] at hj; omega)]
      rfl

/-- Closed form of the openings stage: an error exactly when some volume is
zero, otherwise the elementwise sum of the five opening contributions. -/
theorem openings_stage_eq (building_volume no_chimneys no_open_flues no_fans
    no_room_heaters : List ℚ) (is_draught_lobby : List String) :
    Vent.calculate_infiltration_rate_due_to_openings building_volume no_chimneys
      no_open_flues no_fans no_room_heaters is_draught_lobby =
      if building_volume.any (fun x => decide (x = 0)) then
        .error Vent.zero_volume_message
      else
        .ok (List.zipWith (fun x o => o.map (fun y => x + y))
          (List.zipWith (· + ·) (List.zipWith (· + ·) (List.zipWith (· + ·)
            (List.zipWith (fun n v => n * 40 / v) no_chimneys building_volume)
            (List.zipWith (fun n v => n * 20 / v) no_open_flues building_volume))
            (List.zipWith (fun n v => n * 10 / v) no_fans building_volume))
            (List.zipWith (fun n v => n * 40 / v) no_room_heaters building_volume))
          (is_draught_lobby.map Vent.draught_lobby_rate)) := by
  unfold Vent.calculate_infiltration_rate_due_to_openings
    Vent.calculate_infiltration_rate_due_to_chimneys
    Vent.calculate_infiltration_rate_due_to_open_flues
    Vent.calculate_infiltration_rate_due_to_fans
    Vent.calculate_infiltration_rate_due_to_room_heaters
    Vent._calculate_infiltration_rate_due_to_opening
    Vent.calculate_infiltration_rate_due_to_draught_lobby
  by_cases h : building_volume.any (fun x => decide (x = 0)) <;>
    simp [h, Bind.bind, Except.bind]

/-- Closed form of the structure stage: an error exactly when a structure type
(checked first) or a suspended-floor type is out of set, otherwise the
per-dwelling choice between the permeability test result and the theoretical
sum. -/
theorem structure_stage_eq
    (permeability_test_result no_storeys percentage_draught_stripped : List ℚ)
    (is_floor_suspended structure_type : List String) :
    Vent.calculate_infiltration_rate_due_to_structure permeability_test_result
      no_storeys percentage_draught_stripped is_floor_suspended structure_type =
      if structure_type.all (fun s => decide (s ∈ Vent.acceptable_structure_types)) then
        if is_floor_suspended.all
            (fun s => decide (s ∈ Vent.acceptable_suspended_floor_types)) then
          .ok (List.zipWith (fun p t => if p > 0 then p else t)
            permeability_test_result
            (List.zipWith (· + ·)
              (List.zipWith (· + ·)
                (List.zipWith (· + ·)
                  (no_storeys.map (fun s => (s - 1) * 0.1))
                  (structure_type.map (Vent.structure_type_infiltration_rate 0.35)))
                (is_floor_suspended.map Vent.suspended_floor_infiltration_rate))
              (percentage_draught_stripped.map (fun p => 0.25 - 0.2 * (p / 100)))))
        else .error Vent.floor_type_message
      else .error Vent.structure_type_message := by
  unfold Vent.calculate_infiltration_rate_due_to_structure
    Vent.calculate_infiltration_rate_due_to_structure_type
    Vent.calculate_infiltration_rate_due_to_suspended_floor
    Vent.calculate_infiltration_rate_due_to_height
    Vent.calculate_infiltration_rate_due_to_draught
  by_cases h1 : structure_type.all (fun s => decide (s ∈ Vent.acceptable_structure_types)) <;>
    by_cases h2 : is_floor_suspended.all
      (fun s => decide (s ∈ Vent.acceptable_suspended_floor_types)) <;>
    simp [h1, h2, Bind.bind, Except.bind]

/-- Closed form of the whole `calculate_infiltration_rate` pipeline: the
zero-volume check fires first (openings stage), then the structure-type
check, then the suspended-floor check; when all pass, the result is the
shelter-adjusted sum of the openings and structure stages. -/
theorem infiltration_pipeline_eq
    (no_sides_sheltered building_volume no_chimneys no_open_flues no_fans
      no_room_heaters : List ℚ) (is_draught_lobby : List String)
    (permeability_test_result no_storeys percentage_draught_stripped : List ℚ)
    (is_floor_suspended structure_type : List String) :
    Vent.calculate_infiltration_rate no_sides_sheltered building_volume no_chimneys
      no_open_flues no_fans no_room_heaters is_draught_lobby permeability_test_result
      no_storeys percentage_draught_stripped is_floor_suspended structure_type =
      if building_volume.any (fun x => decide (x = 0)) then
        .error Vent.zero_volume_message
      else if structure_type.all (fun s => decide (s ∈ Vent.acceptable_structure_types)) then
        if is_floor_suspended.all
            (fun s => decide (s ∈ Vent.acceptable_suspended_floor_types)) then
          .ok (Vent.calculate_infiltration_rate_adjustment_factor
            (List.zipWith (fun o s => o.map (fun x => x + s))
              (List.zipWith (fun x o => o.map (fun y => x + y))
                (List.zipWith (· + ·) (List.zipWith (· + ·) (List.zipWith (· + ·)
                  (List.zipWith (fun n v => n * 40 / v) no_chimneys building_volume)
                  (List.zipWith (fun n v => n * 20 / v) no_open_flues building_volume))
                  (List.zipWith (fun n v => n * 10 / v) no_fans building_volume))
                  (List.zipWith (fun n v => n * 40 / v) no_room_heaters building_volume))
                (is_draught_lobby.map Vent.draught_lobby_rate))
              (List.zipWith (fun p t => if p > 0 then p else t)
                permeability_test_result
                (List.zipWith (· + ·)
                  (List.zipWith (· + ·)
                    (List.zipWith (· + ·)
                      (no_storeys.map (fun s => (s - 1) * 0.1))
                      (structure_type.map (Vent.structure_type_infiltration_rate 0.35)))
                    (is_floor_suspended.map Vent.suspended_floor_infiltration_rate))
                  (percentage_draught_stripped.map (fun p => 0.25 - 0.2 * (p / 100))))))
            no_sides_sheltered)
        else .error Vent.floor_type_message
      else .error Vent.structure_type_message := by
  unfold Vent.calculate_infiltration_rate
  rw [openings_stage_eq, structure_stage_eq]
  by_cases h1 : building_volume.any (fun x => decide (x = 0)) <;>
    by_cases h2 : structure_type.all
      (fun s => decide (s ∈ Vent.acceptable_structure_types)) <;>
    by_cases h3 : is_floor_suspended.all
      (fun s => decide (s ∈ Vent.acceptable_suspended_floor_types)) <;>
    simp [h1, h2, h3, Bind.bind, Except.bind]

/-- C1 counterexample: with `building_volume = [-1]` (so the claimed
condition "building_volume ≤ 0 for at least one row" holds) and every
categorical field valid, `calculate_infiltration_rate` does not raise: it
returns a normal result, because the source only rejects volumes equal to
zero. -/
theorem negative_volume_not_rejected :
    Vent.calculate_infiltration_rate [0] [-1] [0] [0] [0] [0] ["NO"]
      [0] [1] [0] ["none"] ["masonry"] = .ok [some 0.65] := by
  rw [infiltration_pipeline_eq]
  norm_num [Vent.acceptable_structure_types, Vent.acceptable_suspended_floor_types,
    Vent.calculate_infiltration_rate_adjustment_factor, Vent.draught_lobby_rate,
    Vent.structure_type_infiltration_rate, Vent.suspended_floor_infiltration_rate]
  exact ⟨1 / 20, by rw [if_neg (by decide)], by norm_num⟩

/-- C1 (amended): for every dwelling population, `calculate_infiltration_rate`
raises if and only if building_volume = 0 for at least one row (negative
volumes are not rejected), or the structure-type or suspended-floor field of
some row lies outside its closed accepted set (the ventilation method is not
an input of this function and is not checked here); the error is raised
before any output is produced — the result is an `Except`, so failure is
atomic. -/
theorem infiltration_rate_error_iff
    (no_sides_sheltered building_volume no_chimneys no_open_flues no_fans
      no_room_heaters : List ℚ) (is_draught_lobby : List String)
    (permeability_test_result no_storeys percentage_draught_stripped : List ℚ)
    (is_floor_suspended structure_type : List String) :
    exceptIsError (Vent.calculate_infiltration_rate no_sides_sheltered
      building_volume no_chimneys no_open_flues no_fans no_room_heaters
      is_draught_lobby permeability_test_result no_storeys
      percentage_draught_stripped is_floor_suspended structure_type) = true ↔
      (∃ v ∈ building_volume, v = 0) ∨
      (∃ s ∈ structure_type, s ∉ Vent.acceptable_structure_types) ∨
      (∃ s ∈ is_floor_suspended, s ∉ Vent.acceptable_suspended_floor_types) := by
  have e1 : building_volume.any (fun x => decide (x = 0)) = true ↔
      ∃ v ∈ building_volume, v = 0 := by simp
  have e2 : structure_type.all (fun s => decide (s ∈ Vent.acceptable_structure_types)) = true ↔
      ∀ s ∈ structure_type, s ∈ Vent.acceptable_structure_types := by simp
  have e3 : is_floor_suspended.all
      (fun s => decide (s ∈ Vent.acceptable_suspended_floor_types)) = true ↔
      ∀ s ∈ is_floor_suspended, s ∈ Vent.acceptable_suspended_floor_types := by simp
  rw [infiltration_pipeline_eq]
  by_cases h1 : building_volume.any (fun x => decide (x = 0))
  · simp only [h1, if_true, exceptIsError, true_iff]
    exact Or.inl (e1.mp h1)
  · by_cases h2 : structure_type.all (fun s => decide (s ∈ Vent.acceptable_structure_types))
    · by_cases h3 : is_floor_suspended.all
        (fun s => decide (s ∈ Vent.acceptable_suspended_floor_types))
      · simp only [h1, h2, h3, if_true, if_false, Bool.false_eq_true, exceptIsError,
          false_iff]
        rintro (⟨v, hv, hv0⟩ | ⟨s, hs, hn⟩ | ⟨s, hs, hn⟩)
        · exact h1 (e1.mpr ⟨v, hv, hv0⟩)
        · exact hn (e2.mp h2 s hs)
        · exact hn (e3.mp h3 s hs)
      · simp only [h1, h2, h3, if_true, if_false, Bool.false_eq_true, exceptIsError,
          true_iff]
        refine Or.inr (Or.inr ?_)
        by_contra hno
        push_neg at hno
        exact h3 (e3.mpr hno)
    · simp only [h1, h2, if_true, if_false, Bool.false_eq_true, exceptIsError, true_iff]
      refine Or.inr (Or.inl ?_)
      by_contra hno
      push_neg at hno
      exact h2 (e2.mpr hno)

/-- C8 counterexample: the draught-lobby lookup does not reject the
out-of-set value `"MAYBE"` — the function cannot raise at all, and the value
is mapped to a missing result (`NaN`, here `none`), contradicting "every
categorical lookup … rejects any value outside its closed accepted set by
raising an error; no out-of-set value is ever silently mapped … to a
missing/NaN result". -/
theorem draught_lobby_out_of_set_is_missing :
    Vent.calculate_infiltration_rate_due_to_draught_lobby ["MAYBE"] = [none] := by
  simp [Vent.calculate_infiltration_rate_due_to_draught_lobby, Vent.draught_lobby_rate]

/-- C8 (amended): the structure-type, suspended-floor and ventilation-method
lookups each raise exactly when some value lies outside their closed accepted
set; the draught-lobby lookup, by contrast, cannot raise and maps any value
outside `{"YES", "NO"}` to a missing (`NaN`) result. -/
theorem categorical_lookup_behaviour :
    (∀ (structure_type : List String) (r : ℚ),
      exceptIsError
          (Vent.calculate_infiltration_rate_due_to_structure_type structure_type r) = true ↔
        ∃ s ∈ structure_type, s ∉ Vent.acceptable_structure_types) ∧
    (∀ is_floor_suspended : List String,
      exceptIsError
          (Vent.calculate_infiltration_rate_due_to_suspended_floor is_floor_suspended) = true ↔
        ∃ s ∈ is_floor_suspended, s ∉ Vent.acceptable_suspended_floor_types) ∧
    (∀ pop : List Vent.VentRow,
      exceptIsError (Vent.calculate_effective_air_rate_change pop) = true ↔
        ∃ r ∈ pop, r.ventilation_method ∉ Vent.acceptable_ventilation_methods) ∧
    (∀ s : String, s ≠ "YES" → s ≠ "NO" → Vent.draught_lobby_rate s = none) := by
  refine ⟨?_, ?_, ?_, ?_⟩
  · intro structure_type r
    unfold Vent.calculate_infiltration_rate_due_to_structure_type
    by_cases h : structure_type.all (fun s => decide (s ∈ Vent.acceptable_structure_types))
    · simp only [h, if_true, exceptIsError, Bool.false_eq_true, false_iff]
      rintro ⟨s, hs, hn⟩
      exact hn (by simpa using List.all_eq_true.mp h s hs)
    · rw [if_neg h]
      simp only [exceptIsError, true_iff]
      simp only [List.all_eq_true, decide_eq_true_eq] at h
      push_neg at h
      exact h
  · intro is_floor_suspended
    unfold Vent.calculate_infiltration_rate_due_to_suspended_floor
    by_cases h : is_floor_suspended.all
      (fun s => decide (s ∈ Vent.acceptable_suspended_floor_types))
    · simp only [h, if_true, exceptIsError, Bool.false_eq_true, false_iff]
      rintro ⟨s, hs, hn⟩
      exact hn (by simpa using List.all_eq_true.mp h s hs)
    · rw [if_neg h]
      simp only [exceptIsError, true_iff]
      simp only [List.all_eq_true, decide_eq_true_eq] at h
      push_neg at h
      exact h
  · intro pop
    unfold Vent.calculate_effective_air_rate_change
    by_cases h : pop.all
      (fun r => decide (r.ventilation_method ∈ Vent.acceptable_ventilation_methods))
    · simp only [h, if_true, exceptIsError, Bool.false_eq_true, false_iff]
      rintro ⟨r, hr, hn⟩
      exact hn (by simpa using List.all_eq_true.mp h r hr)
    · rw [if_neg h]
      simp only [exceptIsError, true_iff]
      simp only [List.all_eq_true, decide_eq_true_eq] at h
      push_neg at h
      exact h
  · intro s h1 h2
    simp [Vent.draught_lobby_rate, h1, h2]

/-- Witness for C8 at concrete inputs. -/
theorem categorical_lookup_behaviour_witness :
    Vent.draught_lobby_rate "MAYBE" = none :=
  categorical_lookup_behaviour.2.2.2 "MAYBE" (by decide) (by decide)

/-- C4: within a validly-typed population, a dwelling with
permeability_test_result > 0 gets exactly that test result from the
structure-infiltration stage, regardless of its storeys, structure-type,
suspended-floor and draught-stripping inputs; a dwelling with
permeability_test_result ≤ 0 gets the theoretical sum
`(storeys − 1) × 0.1 + structure-type rate + suspended-floor rate +
(0.25 − 0.2 × pct / 100)` — the choice is made per dwelling. -/
theorem structure_override
    (permeability_test_result no_storeys percentage_draught_stripped : List ℚ)
    (is_floor_suspended structure_type : List String)
    (out : List ℚ) (d : ℕ)
    (hlen1 : no_storeys.length = permeability_test_result.length)
    (hlen2 : structure_type.length = permeability_test_result.length)
    (hlen3 : is_floor_suspended.length = permeability_test_result.length)
    (hlen4 : percentage_draught_stripped.length = permeability_test_result.length)
    (hd : d < permeability_test_result.length)
    (hok : Vent.calculate_infiltration_rate_due_to_structure permeability_test_result
      no_storeys percentage_draught_stripped is_floor_suspended structure_type = .ok out) :
    (0 < permeability_test_result.getD d 0 →
      out.getD d 0 = permeability_test_result.getD d 0) ∧
    (permeability_test_result.getD d 0 ≤ 0 →
      out.getD d 0 =
        (no_storeys.getD d 0 - 1) * 0.1 +
        Vent.structure_type_infiltration_rate 0.35 (structure_type.getD d "") +
        Vent.suspended_floor_infiltration_rate (is_floor_suspended.getD d "") +
        (0.25 - 0.2 * (percentage_draught_stripped.getD d 0 / 100))) := by
  rw [structure_stage_eq] at hok
  by_cases h2 : structure_type.all (fun s => decide (s ∈ Vent.acceptable_structure_types))
  swap
  · rw [if_neg h2] at hok
    exact absurd hok (by simp)
  rw [if_pos h2] at hok
  by_cases h3 : is_floor_suspended.all
    (fun s => decide (s ∈ Vent.acceptable_suspended_floor_types))
  swap
  · rw [if_neg h3] at hok
    exact absurd hok (by simp)
  rw [if_pos h3] at hok
  injection hok with hok
  subst hok
  have hb0 : d < (no_storeys.map (fun s => (s - 1) * 0.1)).length := by
    simp only [List.length_map]; omega
  have hb1 : d < (structure_type.map (Vent.structure_type_infiltration_rate 0.35)).length := by
    simp only [List.length_map]; omega
  have hb2 : d < (is_floor_suspended.map Vent.suspended_floor_infiltration_rate).length := by
    simp only [List.length_map]; omega
  have hb3 : d < (percentage_draught_stripped.map (fun p => 0.25 - 0.2 * (p / 100))).length := by
    simp only [List.length_map]; omega
  have hb01 : d < (List.zipWith (· + ·) (no_storeys.map (fun s => (s - 1) * 0.1))
      (structure_type.map (Vent.structure_type_infiltration_rate 0.35))).length := by
    simp only [List.length_zipWith, List.length_map]; omega
  have hb012 : d < (List.zipWith (· + ·) (List.zipWith (· + ·)
      (no_storeys.map (fun s => (s - 1) * 0.1))
      (structure_type.map (Vent.structure_type_infiltration_rate 0.35)))
      (is_floor_suspended.map Vent.suspended_floor_infiltration_rate)).length := by
    simp only [List.length_zipWith, List.length_map]; omega
  have hball : d < (List.zipWith (· + ·) (List.zipWith (· + ·) (List.zipWith (· + ·)
      (no_storeys.map (fun s => (s - 1) * 0.1))
      (structure_type.map (Vent.structure_type_infiltration_rate 0.35)))
      (is_floor_suspended.map Vent.suspended_floor_infiltration_rate))
      (percentage_draught_stripped.map (fun p => 0.25 - 0.2 * (p / 100)))).length := by
    simp only [List.length_zipWith, List.length_map]; omega
  rw [getD_zipWith_of_lt (fun p t => if p > 0 then p else t) _ _ d 0 0 0 hd hball]
  constructor
  · intro hp
    rw [if_pos hp]
  · intro hp
    rw [if_neg (not_lt.mpr hp)]
    rw [getD_zipWith_of_lt (· + ·) _ _ d 0 0 0 hb012 hb3]
    rw [getD_zipWith_of_lt (· + ·) _ _ d 0 0 0 hb01 hb2]
    rw [getD_zipWith_of_lt (· + ·) _ _ d 0 0 0 hb0 hb1]
    rw [getD_map_of_lt _ no_storeys d 0 0 (by omega)]
    rw [getD_map_of_lt _ structure_type d "" 0 (by omega)]
    rw [getD_map_of_lt _ is_floor_suspended d "" 0 (by omega)]
    rw [getD_map_of_lt _ percentage_draught_stripped d 0 0 (by omega)]

/-- Witness for C4 at a concrete input: permeability 3 overrides the
theoretical sum, and a non-positive permeability selects the theoretical sum. -/
theorem structure_override_witness :
    exceptIsError (Vent.calculate_infiltration_rate_due_to_structure [3] [2] [50] ["sealed"] ["timber_or_steel"]) = false ∧
    (∀ out, Vent.calculate_infiltration_rate_due_to_structure [3] [2] [50] ["sealed"] ["timber_or_steel"] = .ok out →
      out.getD 0 0 = 3) := by
  constructor
  · rw [structure_stage_eq]
    norm_num [Vent.acceptable_structure_types, Vent.acceptable_suspended_floor_types,
      exceptIsError]
  · intro out hok
    exact (structure_override [3] [2] [50] ["sealed"] ["timber_or_steel"] out 0
      (by decide) (by decide) (by decide) (by decide) (by decide) hok).1 (by norm_num)

set_option maxHeartbeats 3200000 in
/-- C7: for every dwelling of a validly-typed population (draught-lobby flag
in its accepted set for that dwelling), `calculate_infiltration_rate` equals
(openings contribution + structure contribution) × (1 − sheltered_sides ×
0.075), the openings contribution being chimneys×40/volume +
open_flues×20/volume + fans×10/volume + room_heaters×40/volume plus 0.05 when
the draught lobby is absent ("NO") and 0 when present ("YES"). -/
theorem infiltration_rate_formula
    (no_sides_sheltered building_volume no_chimneys no_open_flues no_fans
      no_room_heaters : List ℚ) (is_draught_lobby : List String)
    (permeability_test_result no_storeys percentage_draught_stripped : List ℚ)
    (is_floor_suspended structure_type : List String)
    (out : List (Option ℚ)) (structure_out : List ℚ) (n d : ℕ)
    (hv : building_volume.length = n) (hsh : no_sides_sheltered.length = n)
    (hch : no_chimneys.length = n) (hfl : no_open_flues.length = n)
    (hfa : no_fans.length = n) (hrh : no_room_heaters.length = n)
    (hdl : is_draught_lobby.length = n) (hptr : permeability_test_result.length = n)
    (hst : no_storeys.length = n) (hpct : percentage_draught_stripped.length = n)
    (hfls : is_floor_suspended.length = n) (hsts : structure_type.length = n)
    (hd : d < n)
    (hok : Vent.calculate_infiltration_rate no_sides_sheltered building_volume
      no_chimneys no_open_flues no_fans no_room_heaters is_draught_lobby
      permeability_test_result no_storeys percentage_draught_stripped
      is_floor_suspended structure_type = .ok out)
    (hstruct : Vent.calculate_infiltration_rate_due_to_structure
      permeability_test_result no_storeys percentage_draught_stripped
      is_floor_suspended structure_type = .ok structure_out)
    (hlobby : is_draught_lobby.getD d "" = "YES" ∨ is_draught_lobby.getD d "" = "NO") :
    out.getD d none = some (
      (no_chimneys.getD d 0 * 40 / building_volume.getD d 0
        + no_open_flues.getD d 0 * 20 / building_volume.getD d 0
        + no_fans.getD d 0 * 10 / building_volume.getD d 0
        + no_room_heaters.getD d 0 * 40 / building_volume.getD d 0
        + (if is_draught_lobby.getD d "" = "YES" then 0 else 0.05)
        + structure_out.getD d 0)
      * (1 - no_sides_sheltered.getD d 0 * 0.075)) := by
  rw [infiltration_pipeline_eq] at hok
  rw [structure_stage_eq] at hstruct
  by_cases h1 : building_volume.any (fun x => decide (x = 0))
  · rw [if_pos h1] at hok
    exact absurd hok (by simp)
  rw [if_neg h1] at hok
  by_cases h2 : structure_type.all (fun s => decide (s ∈ Vent.acceptable_structure_types))
  swap
  · rw [if_neg h2] at hok
    exact absurd hok (by simp)
  rw [if_pos h2] at hok hstruct
  by_cases h3 : is_floor_suspended.all
    (fun s => decide (s ∈ Vent.acceptable_suspended_floor_types))
  swap
  · rw [if_neg h3] at hok
    exact absurd hok (by simp)
  rw [if_pos h3] at hok hstruct
  injection hok with hok
  injection hstruct with hstruct
  subst hok
  subst hstruct
  have bch : d < no_chimneys.length := by omega
  have bflu : d < no_open_flues.length := by omega
  have bfan : d < no_fans.length := by omega
  have brhe : d < no_room_heaters.length := by omega
  have bv : d < building_volume.length := by omega
  have bsh : d < no_sides_sheltered.length := by omega
  have bptr : d < permeability_test_result.length := by omega
  have bst : d < no_storeys.length := by omega
  have bpct : d < percentage_draught_stripped.length := by omega
  have bfls : d < is_floor_suspended.length := by omega
  have bsts : d < structure_type.length := by omega
  have bdlo : d < is_draught_lobby.length := by omega
  have evch : no_chimneys[d]? = some (no_chimneys.getD d 0) := by
    rw [List.getD_eq_getElem?_getD, List.getElem?_eq_getElem bch]
    rfl
  have evfl : no_open_flues[d]? = some (no_open_flues.getD d 0) := by
    rw [List.getD_eq_getElem?_getD, List.getElem?_eq_getElem bflu]
    rfl
  have evfa : no_fans[d]? = some (no_fans.getD d 0) := by
    rw [List.getD_eq_getElem?_getD, List.getElem?_eq_getElem bfan]
    rfl
  have evrh : no_room_heaters[d]? = some (no_room_heaters.getD d 0) := by
    rw [List.getD_eq_getElem?_getD, List.getElem?_eq_getElem brhe]
    rfl
  have evv : building_volume[d]? = some (building_volume.getD d 0) := by
    rw [List.getD_eq_getElem?_getD, List.getElem?_eq_getElem bv]
    rfl
  have evsh : no_sides_sheltered[d]? = some (no_sides_sheltered.getD d 0) := by
    rw [List.getD_eq_getElem?_getD, List.getElem?_eq_getElem bsh]
    rfl
  have evptr : permeability_test_result[d]? = some (permeability_test_result.getD d 0) := by
    rw [List.getD_eq_getElem?_getD, List.getElem?_eq_getElem bptr]
    rfl
  have evst : no_storeys[d]? = some (no_storeys.getD d 0) := by
    rw [List.getD_eq_getElem?_getD, List.getElem?_eq_getElem bst]
    rfl
  have evpct : percentage_draught_stripped[d]? = some (percentage_draught_stripped.getD d 0) := by
    rw [List.getD_eq_getElem?_getD, List.getElem?_eq_getElem bpct]
    rfl
  have evfls : is_floor_suspended[d]? = some (is_floor_suspended.getD d "") := by
    rw [List.getD_eq_getElem?_getD, List.getElem?_eq_getElem bfls]
    rfl
  have evsts : structure_type[d]? = some (structure_type.getD d "") := by
    rw [List.getD_eq_getElem?_getD, List.getElem?_eq_getElem bsts]
    rfl
  have evdl : is_draught_lobby[d]? = some (is_draught_lobby.getD d "") := by
    rw [List.getD_eq_getElem?_getD, List.getElem?_eq_getElem bdlo]
    rfl
  generalize hgvch : no_chimneys.getD d 0 = vch at *
  generalize hgvfl : no_open_flues.getD d 0 = vfl at *
  generalize hgvfa : no_fans.getD d 0 = vfa at *
  generalize hgvrh : no_room_heaters.getD d 0 = vrh at *
  generalize hgvv : building_volume.getD d 0 = vv at *
  generalize hgvsh : no_sides_sheltered.getD d 0 = vsh at *
  generalize hgvptr : permeability_test_result.getD d 0 = vptr at *
  generalize hgvst : no_storeys.getD d 0 = vst at *
  generalize hgvpct : percentage_draught_stripped.getD d 0 = vpct at *
  generalize hgvfls : is_floor_suspended.getD d "" = vfls at *
  generalize hgvsts : structure_type.getD d "" = vsts at *
  generalize hgvdl : is_draught_lobby.getD d "" = vdl at *
  rcases hlobby with h | h <;> subst h
  · have hlr : Vent.draught_lobby_rate "YES" = some 0 := by
      unfold Vent.draught_lobby_rate
      rw [if_pos rfl]
    have hite : (if ("YES" : String) = "YES" then (0 : ℚ) else 0.05) = 0 := if_pos rfl
    simp only [Vent.calculate_infiltration_rate_adjustment_factor,
      List.getD_eq_getElem?_getD, List.getElem?_zipWith', List.getElem?_map,
      evch, evfl, evfa, evrh, evv, evsh, evptr, evst, evpct, evfls, evsts, evdl, hlr,
      Option.map_some', Option.some_bind, Option.getD_some, hite, if_true]
  · have hlr : Vent.draught_lobby_rate "NO" = some 0.05 := by
      unfold Vent.draught_lobby_rate
      rw [if_neg (by decide), if_pos rfl]
    have hite : (if ("NO" : String) = "YES" then (0 : ℚ) else 0.05) = 0.05 :=
      if_neg (by decide)
    simp only [Vent.calculate_infiltration_rate_adjustment_factor,
      List.getD_eq_getElem?_getD, List.getElem?_zipWith', List.getElem?_map,
      evch, evfl, evfa, evrh, evv, evsh, evptr, evst, evpct, evfls, evsts, evdl, hlr,
      Option.map_some', Option.some_bind, Option.getD_some, hite, if_true]

/-- Witness for C7 at a concrete single-dwelling input. -/
theorem infiltration_rate_formula_witness :
    ∃ out structure_out,
      Vent.calculate_infiltration_rate [1] [100] [2] [1] [3] [0] ["NO"]
        [0] [2] [50] ["sealed"] ["masonry"] = .ok out ∧
      Vent.calculate_infiltration_rate_due_to_structure [0] [2] [50] ["sealed"] ["masonry"] = .ok structure_out ∧
      out.getD 0 none = some (
        ((2 : ℚ) * 40 / 100 + 1 * 20 / 100 + 3 * 10 / 100 + 0 * 40 / 100
          + (if ("NO" : String) = "YES" then 0 else 0.05)
          + structure_out.getD 0 0)
        * (1 - 1 * 0.075)) := by
  have hok : ∃ out, Vent.calculate_infiltration_rate [1] [100] [2] [1] [3] [0] ["NO"]
      [0] [2] [50] ["sealed"] ["masonry"] = .ok out := by
    rw [infiltration_pipeline_eq]
    norm_num [Vent.acceptable_structure_types, Vent.acceptable_suspended_floor_types]
  have hst : ∃ structure_out, Vent.calculate_infiltration_rate_due_to_structure
      [0] [2] [50] ["sealed"] ["masonry"] = .ok structure_out := by
    rw [structure_stage_eq]
    norm_num [Vent.acceptable_structure_types, Vent.acceptable_suspended_floor_types]
  obtain ⟨out, hok⟩ := hok
  obtain ⟨structure_out, hst⟩ := hst
  refine ⟨out, structure_out, hok, hst, ?_⟩
  have hg : ([("NO" : String)].getD 0 "" = "YES" ∨ ["NO"].getD 0 "" = "NO") := by
    right
    rfl
  have := infiltration_rate_formula [1] [100] [2] [1] [3] [0] ["NO"]
    [0] [2] [50] ["sealed"] ["masonry"] out structure_out 1 0
    rfl rfl rfl rfl rfl rfl rfl rfl rfl rfl rfl rfl (by decide) hok hst hg
  simpa using this

/-- C2: evaluation of the structure stage, index behaviour included, on a
single-dwelling population whose index label is 7: the returned series
carries index label 0 (the default range index attached by
`pd.Series(np.where(...))`), not the input label 7 — the stage does not
preserve the population index, so downstream alignment with the
openings-stage series (which keeps label 7) is broken for any non-default
index. -/
theorem structure_stage_index_dropped :
    Vent.calculate_infiltration_rate_due_to_structure_reindexed [7] [5] [2] [50]
      ["none"] ["masonry"] = .ok [((0 : ℤ), 5)] := by
  unfold Vent.calculate_infiltration_rate_due_to_structure_reindexed
  rw [structure_stage_eq]
  norm_num [Vent.acceptable_structure_types, Vent.acceptable_suspended_floor_types,
    Bind.bind, Except.bind, Vent.structure_type_infiltration_rate,
    Vent.suspended_floor_infiltration_rate, List.range, List.range.loop]

/-- C5: with the default monthly constants, `calculate_heat_loss_per_year`
returns one value per dwelling, in input order; dwelling `d`'s value is the
rounded sum, over exactly the eight heating-season months (jan, feb, mar,
apr, may, oct, nov, dec), of `coefficient × delta_T × hours / 1000`; in
particular a zero coefficient gives 0. -/
theorem heat_loss_per_year_formula (heat_loss_coefficient : List ℚ) (d : ℕ)
    (hd : d < heat_loss_coefficient.length) :
    (Htuse.calculate_heat_loss_per_year heat_loss_coefficient).length =
      heat_loss_coefficient.length ∧
    (Htuse.calculate_heat_loss_per_year heat_loss_coefficient).getD d 0 =
      Htuse.np_round ((Htuse.heating_month_positions.map (fun m =>
        heat_loss_coefficient.getD d 0 * Htuse.DELTA_T_BY_MONTH.getD m 0 *
          Htuse.HOURS_PER_MONTH.getD m 0 / 1000)).sum) ∧
    (heat_loss_coefficient.getD d 0 = 0 →
      (Htuse.calculate_heat_loss_per_year heat_loss_coefficient).getD d 0 = 0) := by
  have hHlen : Htuse.HOURS_PER_MONTH.length = 12 := rfl
  have hdlen : Htuse.DELTA_T_BY_MONTH.length = 12 := rfl
  have hkwh : ∀ m, m < 12 →
      (Htuse._calculate_heat_loss_kwh heat_loss_coefficient Htuse.DELTA_T_BY_MONTH
        Htuse.HOURS_PER_MONTH).getD (d * 12 + m) 0 =
      heat_loss_coefficient.getD d 0 * Htuse.DELTA_T_BY_MONTH.getD m 0 * (1 / 1000) *
        Htuse.HOURS_PER_MONTH.getD m 0 := by
    intro m hm
    unfold Htuse._calculate_heat_loss_kwh
    rw [hHlen]
    have brep : d * 12 + m <
        (Htuse.np_repeat heat_loss_coefficient 12).length := by
      rw [np_repeat_length]; omega
    have btile : d * 12 + m <
        (Htuse.np_tile Htuse.DELTA_T_BY_MONTH heat_loss_coefficient.length).length := by
      rw [np_tile_length, hdlen]; omega
    have btileH : d * 12 + m <
        (Htuse.np_tile Htuse.HOURS_PER_MONTH heat_loss_coefficient.length).length := by
      rw [np_tile_length, hHlen]; omega
    have bw : d * 12 + m < (List.zipWith (· * ·)
        (Htuse.np_repeat heat_loss_coefficient 12)
        (Htuse.np_tile Htuse.DELTA_T_BY_MONTH heat_loss_coefficient.length)).length := by
      rw [List.length_zipWith]; omega
    rw [getD_zipWith_of_lt (fun x h => x * (1 / 1000) * h) _ _ (d * 12 + m) 0 0 0 bw btileH]
    rw [getD_zipWith_of_lt (· * ·) _ _ (d * 12 + m) 0 0 0 brep btile]
    rw [np_repeat_getD heat_loss_coefficient 12 d m hm hd]
    rw [np_tile_getD Htuse.DELTA_T_BY_MONTH 12 heat_loss_coefficient.length d m hdlen hm hd]
    rw [np_tile_getD Htuse.HOURS_PER_MONTH 12 heat_loss_coefficient.length d m hHlen hm hd]
  have hlen8 : Htuse.heating_month_positions.length = 8 := rfl
  have hblock : ∀ x, ((List.range heat_loss_coefficient.length).map
      (fun dd => (Htuse._calculate_heat_loss_kwh heat_loss_coefficient
        Htuse.DELTA_T_BY_MONTH Htuse.HOURS_PER_MONTH).getD (dd * 12 + x) 0)).length =
      heat_loss_coefficient.length := by
    intro x
    simp
  have hsel : ∀ j, j < 8 →
      (Htuse.heating_month_positions.flatMap
        (fun m => (List.range heat_loss_coefficient.length).map
          (fun dd => (Htuse._calculate_heat_loss_kwh heat_loss_coefficient
            Htuse.DELTA_T_BY_MONTH Htuse.HOURS_PER_MONTH).getD (dd * 12 + m) 0))).getD
        (j * heat_loss_coefficient.length + d) 0 =
      heat_loss_coefficient.getD d 0 *
        Htuse.DELTA_T_BY_MONTH.getD (Htuse.heating_month_positions.getD j 0) 0 * (1 / 1000) *
        Htuse.HOURS_PER_MONTH.getD (Htuse.heating_month_positions.getD j 0) 0 := by
    intro j hj
    rw [getD_flatMap_fixed Htuse.heating_month_positions _ heat_loss_coefficient.length
      hblock j d 0 (by omega) hd]
    rw [getD_range_map _ heat_loss_coefficient.length d 0 hd]
    exact hkwh (Htuse.heating_month_positions.getD j 0)
      (by
        have : ∀ j, j < 8 → Htuse.heating_month_positions.getD j 0 < 12 := by decide
        exact this j hj)
  have hmain : (Htuse.calculate_heat_loss_per_year heat_loss_coefficient).getD d 0 =
      Htuse.np_round ((Htuse.heating_month_positions.map (fun m =>
        heat_loss_coefficient.getD d 0 * Htuse.DELTA_T_BY_MONTH.getD m 0 *
          Htuse.HOURS_PER_MONTH.getD m 0 / 1000)).sum) := by
    unfold Htuse.calculate_heat_loss_per_year
    rw [getD_map_of_lt Htuse.np_round _ d 0 0 (by simpa using hd)]
    rw [getD_range_map _ heat_loss_coefficient.length d 0 hd]
    congr 1
    rw [hlen8]
    rw [show List.range 8 = [0, 1, 2, 3, 4, 5, 6, 7] from rfl]
    simp only [List.map_cons, List.map_nil, List.sum_cons, List.sum_nil]
    rw [hsel 0 (by omega), hsel 1 (by omega), hsel 2 (by omega), hsel 3 (by omega),
      hsel 4 (by omega), hsel 5 (by omega), hsel 6 (by omega), hsel 7 (by omega)]
    rw [show Htuse.heating_month_positions = [0, 1, 2, 3, 4, 9, 10, 11] from rfl]
    simp only [List.getD_cons_zero, List.getD_cons_succ, List.map_cons, List.map_nil,
      List.sum_cons, List.sum_nil]
    ring
  refine ⟨?_, hmain, fun hzero => ?_⟩
  · unfold Htuse.calculate_heat_loss_per_year
    simp
  · rw [hmain, hzero]
    norm_num [Htuse.np_round]

/-- Witness for C5 at a concrete input: a single dwelling with coefficient 0
gets annual heat loss 0. -/
theorem heat_loss_per_year_formula_witness :
    (Htuse.calculate_heat_loss_per_year [0]).getD 0 0 = 0 :=
  (heat_loss_per_year_formula [0] 0 (by decide)).2.2 rfl

/-- Splitting a population into the five ventilation-method groups (in the
source's concatenation order) and re-concatenating them is a permutation of
the population, provided every method value is in the accepted set. -/
theorem filter_partition_perm (pop : List Vent.VentRow)
    (h : ∀ r ∈ pop, r.ventilation_method ∈ Vent.acceptable_ventilation_methods) :
    ((pop.filter (fun r => r.ventilation_method == "natural_ventilation") ++
        pop.filter (fun r => r.ventilation_method == "positive_input_ventilation_from_loft") ++
        pop.filter (fun r => r.ventilation_method == "positive_input_ventilation_from_outside") ++
        pop.filter (fun r => r.ventilation_method == "mechanical_ventilation_no_heat_recovery") ++
        pop.filter (fun r => r.ventilation_method == "mechanical_ventilation_heat_recovery"))).Perm pop := by
  induction pop with
  | nil => simp
  | cons a as ih =>
    have ha := h a (by simp)
    have has : ∀ r ∈ as, r.ventilation_method ∈ Vent.acceptable_ventilation_methods :=
      fun r hr => h r (by simp [hr])
    simp only [Vent.acceptable_ventilation_methods, List.mem_cons,
      List.not_mem_nil, or_false] at ha
    rcases ha with ha | ha | ha | ha | ha
    · -- loft: second group in the concatenation
      rw [List.filter_cons_of_neg (by rw [ha]; decide),
        List.filter_cons_of_pos (by rw [ha]; decide),
        List.filter_cons_of_neg (by rw [ha]; decide),
        List.filter_cons_of_neg (by rw [ha]; decide),
        List.filter_cons_of_neg (by rw [ha]; decide)]
      exact (((List.perm_middle.append_right _).append_right _).append_right _).trans
        ((ih has).cons a)
    · -- natural: first group
      rw [List.filter_cons_of_pos (by rw [ha]; decide),
        List.filter_cons_of_neg (by rw [ha]; decide),
        List.filter_cons_of_neg (by rw [ha]; decide),
        List.filter_cons_of_neg (by rw [ha]; decide),
        List.filter_cons_of_neg (by rw [ha]; decide)]
      exact (ih has).cons a
    · -- mechanical, no heat recovery: fourth group
      rw [List.filter_cons_of_neg (by rw [ha]; decide),
        List.filter_cons_of_neg (by rw [ha]; decide),
        List.filter_cons_of_neg (by rw [ha]; decide),
        List.filter_cons_of_pos (by rw [ha]; decide),
        List.filter_cons_of_neg (by rw [ha]; decide)]
      exact (List.perm_middle.append_right _).trans ((ih has).cons a)
    · -- mechanical with heat recovery: fifth group
      rw [List.filter_cons_of_neg (by rw [ha]; decide),
        List.filter_cons_of_neg (by rw [ha]; decide),
        List.filter_cons_of_neg (by rw [ha]; decide),
        List.filter_cons_of_neg (by rw [ha]; decide),
        List.filter_cons_of_pos (by rw [ha]; decide)]
      exact List.perm_middle.trans ((ih has).cons a)
    · -- outside: third group
      rw [List.filter_cons_of_neg (by rw [ha]; decide),
        List.filter_cons_of_neg (by rw [ha]; decide),
        List.filter_cons_of_pos (by rw [ha]; decide),
        List.filter_cons_of_neg (by rw [ha]; decide),
        List.filter_cons_of_neg (by rw [ha]; decide)]
      exact ((List.perm_middle.append_right _).append_right _).trans ((ih has).cons a)

/-- C3: for every population over any mix of the five ventilation methods,
`calculate_effective_air_rate_change` returns one row per input row: the
output length equals the input length, the output index labels are a
permutation of the input index labels (hence the same index set), the output
is ordered by index label (the `sort_index()` recombination), and when the
population's index labels are strictly increasing — the normal ordered
population — the output labels coincide with the input labels position by
position. -/
theorem effective_air_rate_change_partition (pop : List Vent.VentRow)
    (out : List (ℕ × ℚ))
    (hok : Vent.calculate_effective_air_rate_change pop = .ok out) :
    out.length = pop.length ∧
    (out.map Prod.fst).Perm (pop.map Vent.VentRow.idx) ∧
    (out.map Prod.fst).Sorted (· ≤ ·) ∧
    ((pop.map Vent.VentRow.idx).Pairwise (· < ·) →
      out.map Prod.fst = pop.map Vent.VentRow.idx) := by
  unfold Vent.calculate_effective_air_rate_change at hok
  by_cases h : pop.all
    (fun r => decide (r.ventilation_method ∈ Vent.acceptable_ventilation_methods))
  swap
  · rw [if_neg h] at hok
    exact absurd hok (by simp)
  rw [if_pos h] at hok
  injection hok with hok
  subst hok
  have hall : ∀ r ∈ pop, r.ventilation_method ∈ Vent.acceptable_ventilation_methods := by
    simpa using h
  have hcat : (((pop.filter (fun r => r.ventilation_method == "natural_ventilation")).map
        (fun r => (r.idx, Vent.natural_ventilation_air_rate_change_scalar r.infiltration_rate)) ++
      (pop.filter (fun r => r.ventilation_method == "positive_input_ventilation_from_loft")).map
        (fun r => (r.idx, Vent.loft_ventilation_air_rate_change_scalar r.infiltration_rate r.building_volume)) ++
      (pop.filter (fun r => r.ventilation_method == "positive_input_ventilation_from_outside")).map
        (fun r => (r.idx, Vent.outside_ventilation_air_rate_change_scalar r.infiltration_rate)) ++
      (pop.filter (fun r => r.ventilation_method == "mechanical_ventilation_no_heat_recovery")).map
        (fun r => (r.idx, Vent.mech_ventilation_air_rate_change_scalar r.infiltration_rate)) ++
      (pop.filter (fun r => r.ventilation_method == "mechanical_ventilation_heat_recovery")).map
        (fun r => (r.idx, Vent.heat_recovery_ventilation_air_rate_change_scalar
          r.infiltration_rate r.heat_exchanger_efficiency)))).map Prod.fst = ((pop.filter (fun r => r.ventilation_method == "natural_ventilation") ++
        pop.filter (fun r => r.ventilation_method == "positive_input_ventilation_from_loft") ++
        pop.filter (fun r => r.ventilation_method == "positive_input_ventilation_from_outside") ++
        pop.filter (fun r => r.ventilation_method == "mechanical_ventilation_no_heat_recovery") ++
        pop.filter (fun r => r.ventilation_method == "mechanical_ventilation_heat_recovery"))).map Vent.VentRow.idx := by
    simp only [List.map_append, List.map_map, Function.comp_def]
  have hpermidx : ((List.mergeSort ((pop.filter (fun r => r.ventilation_method == "natural_ventilation")).map
        (fun r => (r.idx, Vent.natural_ventilation_air_rate_change_scalar r.infiltration_rate)) ++
      (pop.filter (fun r => r.ventilation_method == "positive_input_ventilation_from_loft")).map
        (fun r => (r.idx, Vent.loft_ventilation_air_rate_change_scalar r.infiltration_rate r.building_volume)) ++
      (pop.filter (fun r => r.ventilation_method == "positive_input_ventilation_from_outside")).map
        (fun r => (r.idx, Vent.outside_ventilation_air_rate_change_scalar r.infiltration_rate)) ++
      (pop.filter (fun r => r.ventilation_method == "mechanical_ventilation_no_heat_recovery")).map
        (fun r => (r.idx, Vent.mech_ventilation_air_rate_change_scalar r.infiltration_rate)) ++
      (pop.filter (fun r => r.ventilation_method == "mechanical_ventilation_heat_recovery")).map
        (fun r => (r.idx, Vent.heat_recovery_ventilation_air_rate_change_scalar
          r.infiltration_rate r.heat_exchanger_efficiency)))
        (fun a b : ℕ × ℚ => decide (a.1 ≤ b.1))).map Prod.fst).Perm
      (pop.map Vent.VentRow.idx) := by
    refine ((List.mergeSort_perm _ _).map Prod.fst).trans ?_
    rw [hcat]
    exact (filter_partition_perm pop hall).map Vent.VentRow.idx
  have hpairwise : (List.mergeSort ((pop.filter (fun r => r.ventilation_method == "natural_ventilation")).map
        (fun r => (r.idx, Vent.natural_ventilation_air_rate_change_scalar r.infiltration_rate)) ++
      (pop.filter (fun r => r.ventilation_method == "positive_input_ventilation_from_loft")).map
        (fun r => (r.idx, Vent.loft_ventilation_air_rate_change_scalar r.infiltration_rate r.building_volume)) ++
      (pop.filter (fun r => r.ventilation_method == "positive_input_ventilation_from_outside")).map
        (fun r => (r.idx, Vent.outside_ventilation_air_rate_change_scalar r.infiltration_rate)) ++
      (pop.filter (fun r => r.ventilation_method == "mechanical_ventilation_no_heat_recovery")).map
        (fun r => (r.idx, Vent.mech_ventilation_air_rate_change_scalar r.infiltration_rate)) ++
      (pop.filter (fun r => r.ventilation_method == "mechanical_ventilation_heat_recovery")).map
        (fun r => (r.idx, Vent.heat_recovery_ventilation_air_rate_change_scalar
          r.infiltration_rate r.heat_exchanger_efficiency)))
        (fun a b : ℕ × ℚ => decide (a.1 ≤ b.1))).Pairwise
      (fun a b : ℕ × ℚ => a.1 ≤ b.1) := by
    have := @List.sorted_mergeSort (ℕ × ℚ) (fun a b : ℕ × ℚ => decide (a.1 ≤ b.1))
      (by intro a b c hab hbc; simp only [decide_eq_true_eq] at *; omega)
      (by intro a b; simp only [Bool.or_eq_true, decide_eq_true_eq]; omega)
      ((pop.filter (fun r => r.ventilation_method == "natural_ventilation")).map
        (fun r => (r.idx, Vent.natural_ventilation_air_rate_change_scalar r.infiltration_rate)) ++
      (pop.filter (fun r => r.ventilation_method == "positive_input_ventilation_from_loft")).map
        (fun r => (r.idx, Vent.loft_ventilation_air_rate_change_scalar r.infiltration_rate r.building_volume)) ++
      (pop.filter (fun r => r.ventilation_method == "positive_input_ventilation_from_outside")).map
        (fun r => (r.idx, Vent.outside_ventilation_air_rate_change_scalar r.infiltration_rate)) ++
      (pop.filter (fun r => r.ventilation_method == "mechanical_ventilation_no_heat_recovery")).map
        (fun r => (r.idx, Vent.mech_ventilation_air_rate_change_scalar r.infiltration_rate)) ++
      (pop.filter (fun r => r.ventilation_method == "mechanical_ventilation_heat_recovery")).map
        (fun r => (r.idx, Vent.heat_recovery_ventilation_air_rate_change_scalar
          r.infiltration_rate r.heat_exchanger_efficiency)))
    exact this.imp (by intro a b hab; simpa using hab)
  have hsorted : ((List.mergeSort ((pop.filter (fun r => r.ventilation_method == "natural_ventilation")).map
        (fun r => (r.idx, Vent.natural_ventilation_air_rate_change_scalar r.infiltration_rate)) ++
      (pop.filter (fun r => r.ventilation_method == "positive_input_ventilation_from_loft")).map
        (fun r => (r.idx, Vent.loft_ventilation_air_rate_change_scalar r.infiltration_rate r.building_volume)) ++
      (pop.filter (fun r => r.ventilation_method == "positive_input_ventilation_from_outside")).map
        (fun r => (r.idx, Vent.outside_ventilation_air_rate_change_scalar r.infiltration_rate)) ++
      (pop.filter (fun r => r.ventilation_method == "mechanical_ventilation_no_heat_recovery")).map
        (fun r => (r.idx, Vent.mech_ventilation_air_rate_change_scalar r.infiltration_rate)) ++
      (pop.filter (fun r => r.ventilation_method == "mechanical_ventilation_heat_recovery")).map
        (fun r => (r.idx, Vent.heat_recovery_ventilation_air_rate_change_scalar
          r.infiltration_rate r.heat_exchanger_efficiency)))
        (fun a b : ℕ × ℚ => decide (a.1 ≤ b.1))).map Prod.fst).Sorted (· ≤ ·) :=
    hpairwise.map Prod.fst (fun _ _ hab => hab)
  refine ⟨?_, hpermidx, hsorted, fun hinc => ?_⟩
  · have := hpermidx.length_eq
    simpa using this
  · exact List.eq_of_perm_of_sorted hpermidx hsorted (hinc.imp le_of_lt)

/-- Witness for C3: a population containing all five ventilation methods
simultaneously, with index labels 0..4. -/
theorem effective_air_rate_change_partition_witness :
    ∃ out, Vent.calculate_effective_air_rate_change
      [(⟨0, "natural_ventilation", 10, 2, 50⟩ : Vent.VentRow),
       ⟨1, "positive_input_ventilation_from_loft", 10, 2, 50⟩,
       ⟨2, "positive_input_ventilation_from_outside", 10, 2, 50⟩,
       ⟨3, "mechanical_ventilation_no_heat_recovery", 10, 2, 50⟩,
       ⟨4, "mechanical_ventilation_heat_recovery", 10, 2, 50⟩] = .ok out ∧
      out.length = 5 ∧ out.map Prod.fst = [0, 1, 2, 3, 4] := by
  obtain ⟨out, hout⟩ : ∃ out, Vent.calculate_effective_air_rate_change
      [(⟨0, "natural_ventilation", 10, 2, 50⟩ : Vent.VentRow),
       ⟨1, "positive_input_ventilation_from_loft", 10, 2, 50⟩,
       ⟨2, "positive_input_ventilation_from_outside", 10, 2, 50⟩,
       ⟨3, "mechanical_ventilation_no_heat_recovery", 10, 2, 50⟩,
       ⟨4, "mechanical_ventilation_heat_recovery", 10, 2, 50⟩] = .ok out :=
    ⟨_, by
      unfold Vent.calculate_effective_air_rate_change
      rw [if_pos (by decide)]⟩
  refine ⟨out, hout, ?_, ?_⟩
  · have := (effective_air_rate_change_partition _ out hout).1
    simpa using this
  · have := (effective_air_rate_change_partition _ out hout).2.2.2 (by decide)
    rw [this]
    rfl

/-- C10: for every pair of heat-loss and useful-gains inputs,
`calculate_heat_use` returns `(heat_loss − useful_gains) / 0.913 × 24 × 243 /
1000`; the function is total (never raises) on all numeric inputs. -/
theorem heat_use_formula (heat_loss useful_gains : ℚ) :
    Htuse.calculate_heat_use heat_loss useful_gains =
      (heat_loss - useful_gains) / 0.913 * 24 * 243 / 1000 := by
  unfold Htuse.calculate_heat_use
  ring

/-- C9: for every floor-area and window-area series of a common length,
`calculate_useful_gains_per_year` (with default solar gains and light-gain
value) returns, per dwelling, `(window_area / 6) × Σ_months (solar_gain_month
× utilisation_factor_month) × 1000 / 24 + floor_area × 8`. -/
theorem useful_gains_formula (floor_area window_area : List ℚ)
    (hlen : floor_area.length = window_area.length) (d : ℕ)
    (hd : d < floor_area.length) :
    (Htuse.calculate_useful_gains_per_year floor_area window_area).getD d 0 =
      (window_area.getD d 0 / 6) *
        (List.zipWith (· * ·) Htuse.MEAN_MONTHLY_SOLAR_GAINS Htuse.UTILISATION_FACTOR).sum
        * 1000 / 24
      + floor_area.getD d 0 * 8 := by
  unfold Htuse.calculate_useful_gains_per_year
  have hd2 : d < window_area.length := hlen ▸ hd
  rw [List.getD_eq_getElem?_getD, List.getElem?_zipWith]
  simp only [List.getElem?_map]
  rw [List.getElem?_eq_getElem hd2, List.getElem?_eq_getElem hd]
  simp [List.getD_eq_getElem?_getD, List.getElem?_eq_getElem, hd, hd2, mul_div_assoc]

/-- Witness for C9 at a concrete input. -/
theorem useful_gains_formula_witness :
    (Htuse.calculate_useful_gains_per_year [10] [6]).getD 0 0 =
      (((6 : ℚ) / 6) *
        (List.zipWith (· * ·) Htuse.MEAN_MONTHLY_SOLAR_GAINS Htuse.UTILISATION_FACTOR).sum
        * 1000 / 24 + 10 * 8) :=
  useful_gains_formula [10] [6] rfl 0 (by decide)

/-- C6: the natural-ventilation air-change formula returns the infiltration
rate itself when it strictly exceeds 1 and `0.5 + 0.5 × infiltration²`
otherwise, elementwise over the series; in particular `0.8 ↦ 0.82`,
`1.5 ↦ 1.5`, and exactly `1` takes the squared branch giving `1`. -/
theorem natural_ventilation_branches :
    (∀ (l : List ℚ) (d : ℕ), d < l.length →
      (1 < l.getD d 0 →
        (Vent._calculate_natural_ventilation_air_rate_change l).getD d 0 = l.getD d 0) ∧
      (l.getD d 0 ≤ 1 →
        (Vent._calculate_natural_ventilation_air_rate_change l).getD d 0 =
          0.5 + 0.5 * (l.getD d 0) ^ 2)) ∧
    Vent._calculate_natural_ventilation_air_rate_change [0.8, 1.5, 1] = [0.82, 1.5, 1] := by
  constructor
  · intro l d hd
    unfold Vent._calculate_natural_ventilation_air_rate_change
    rw [getD_map_of_lt _ l d 0 0 hd]
    unfold Vent.natural_ventilation_air_rate_change_scalar
    constructor
    · intro h1
      rw [if_pos h1]
    · intro h1
      rw [if_neg (not_lt.mpr h1)]
      ring
  · unfold Vent._calculate_natural_ventilation_air_rate_change
      Vent.natural_ventilation_air_rate_change_scalar
    norm_num

/-- Witness for C6 at a concrete input. -/
theorem natural_ventilation_branches_witness :
    (Vent._calculate_natural_ventilation_air_rate_change [2]).getD 0 0 = 2 :=
  (natural_ventilation_branches.1 [2] 0 (by decide)).1 (by norm_num)
